import Mathlib

/-!
Shallow embedding of the authentication core of the `ifa-labs-dashboard-api`
repository (Express + Firestore, TypeScript).

Embedding conventions:
* Firestore `Timestamp` values are modelled as `Nat` milliseconds since the
  epoch; `new Date()` / `Timestamp.now()` become an explicit `now : Nat`
  parameter.  JWT `iat`/`exp` claims are likewise `Nat` (the unit never
  matters: a token is only ever compared against the clock passed to its
  verifier).
* JavaScript string falsiness (`!s` true for `undefined` and `""`) is
  `falsyStr` / `falsyOpt`; optional record fields are `Option`.
* The external bcrypt primitive (`bcryptjs`) is modelled by a deterministic
  stand-in whose only relevant behaviour is the contract
  `compare(p, hash(q)) = (p == q)`.
* Randomness (`JWTService.generateOTP`) and the record store's id assignment
  are passed in as explicit parameters.
* The mail dispatcher (`EmailService.send*`) returns success/failure; it is
  modelled as an explicit `Bool` parameter per dispatch site.
* Each route handler of `src/routes/auth.ts` is translated either at the
  record level (`*Core`, the code after the `getByEmail` lookup, acting on the
  found user record) or at the store level (acting on a list of user records),
  returning `Except (status × message) data` for the HTTP response envelope
  together with the post-state.
-/

/-- JS falsiness of a string: `!s` is true exactly for the empty string. -/
def falsyStr (s : String) : Bool := s.length == 0

/-- JS falsiness of an optional string field: `undefined` and `""` are falsy. -/
def falsyOpt : Option String → Bool
  | none => true
  | some s => falsyStr s

/-- External bcrypt primitive, modelled deterministically
(`JWTService.hashPassword`): the digest is a tagged copy of the plaintext, so
that `comparePassword` succeeds exactly on the hashed plaintext, which is the
behavioural contract of `bcrypt.hash`/`bcrypt.compare` used by the code. -/
def hashPassword (password : String) : String := "bcrypt$" ++ password

/-- `JWTService.comparePassword(password, hashedPassword)` =
`bcrypt.compare`: true iff `hashedPassword` is the digest of `password`. -/
def comparePassword (password hashed : String) : Bool :=
  hashed == hashPassword password

/-- An account record, from the `User` interface of `src/types/firebase.ts`
(the fields the auth flow reads or writes). -/
structure UserRec where
  id : String
  email : String
  displayName : String
  role : String
  isActive : Bool
  isEmailVerified : Bool
  password : Option String
  subscriptionPlan : String
  apiRequestsCount : Nat
  apiRequestsLimit : Nat
  emailVerificationOTP : Option String
  emailVerificationExpiresAt : Option Nat
  loginOTP : Option String
  loginOTPExpiresAt : Option Nat
  passwordResetOTP : Option String
  passwordResetExpiresAt : Option Nat
  failedLoginAttempts : Nat
  lastFailedLoginAt : Option Nat
  accountLockedUntil : Option Nat
  lastLoginAt : Nat
  deriving DecidableEq, Repr

/-- `UserService.getByEmail`: field-equality lookup, first match. -/
def getByEmail (db : List UserRec) (email : String) : Option UserRec :=
  db.find? (fun u => u.email == email)

/-- `BaseFirebaseService.update`: partial field update of the document with
the given id, modelled as applying `f` to every record whose id matches. -/
def updateById (db : List UserRec) (id : String) (f : UserRec → UserRec) : List UserRec :=
  db.map (fun u => if u.id == id then f u else u)

/-- `BaseFirebaseService.delete`: remove the document with the given id. -/
def deleteById (db : List UserRec) (id : String) : List UserRec :=
  db.filter (fun u => u.id != id)

/-- HTTP error outcome: status code and safe message, as produced by
`createError(message, statusCode)` and the handlers' catch blocks. -/
abbrev ErrResp := Nat × String

/-- Whether a response is the success envelope (`success: true`). -/
def respOk {α : Type} : Except ErrResp α → Bool
  | .ok _ => true
  | .error _ => false

/-- Status code of an error response, if the response is an error. -/
def errStatus {α : Type} : Except ErrResp α → Option Nat
  | .error (s, _) => some s
  | .ok _ => none

/-- Success data `{message, userId, email}` shared by the signup steps. -/
structure MsgUserEmail where
  message : String
  userId : String
  email : String
  deriving DecidableEq, Repr

/-- Success data `{message}` (forgot-password, set-new-password). -/
structure MsgOnly where
  message : String
  deriving DecidableEq, Repr

/-! ## Token issuer (`src/services/jwtService.ts`) -/

/-- The process-wide signing secret (the code's default value). -/
def JWT_SECRET : String := "your-super-secret-jwt-key-change-in-production"

/-- Purpose claim of a short-lived OTP token. -/
inductive Purpose where
  | signup
  | login
  | passwordReset
  deriving DecidableEq, Repr

/-- Identity claims of a session token (`JWTPayload` minus `iat`/`exp`). -/
structure SessionClaims where
  userId : String
  email : String
  role : String
  subscriptionPlan : String
  deriving DecidableEq, Repr

/-- The signed body of a token: either session identity claims or an OTP
purpose claim (`OTPPayload` minus `iat`/`exp`). -/
inductive TokenPayload where
  | session (claims : SessionClaims)
  | otp (email : String) (purpose : Purpose)
  deriving DecidableEq, Repr

/-- A JWT, modelled abstractly: payload, issued-at, expiry, and the secret it
was signed with (signature validity = the secret equals `JWT_SECRET`). -/
structure SignedToken where
  payload : TokenPayload
  iat : Nat
  exp : Nat
  secret : String
  deriving DecidableEq, Repr

/-- `JWTService.generateToken`: session token, `expiresIn: '7d'`. -/
def generateToken (claims : SessionClaims) (now : Nat) : SignedToken :=
  { payload := .session claims, iat := now, exp := now + 7 * 24 * 60 * 60, secret := JWT_SECRET }

/-- `JWTService.generateOTPToken`: purpose token, `expiresIn: '10m'`. -/
def generateOTPToken (email : String) (purpose : Purpose) (now : Nat) : SignedToken :=
  { payload := .otp email purpose, iat := now, exp := now + 10 * 60, secret := JWT_SECRET }

/-- `jwt.verify(token, JWT_SECRET)` wrapped in try/catch: returns the payload
when the signature checks out against `JWT_SECRET` and the token is not yet
expired, `null` (here `none`) otherwise. -/
def jwtVerify (t : SignedToken) (now : Nat) : Option TokenPayload :=
  if t.secret == JWT_SECRET && decide (now < t.exp) then some t.payload else none

/-- `JWTService.verifyToken`. -/
def verifyToken (t : SignedToken) (now : Nat) : Option TokenPayload :=
  jwtVerify t now

/-- `JWTService.verifyOTPToken`. -/
def verifyOTPToken (t : SignedToken) (now : Nat) : Option TokenPayload :=
  jwtVerify t now

/-- `JWTService.isTokenExpired`: inspects the decoded `exp` claim without
signature validation; in this model every token carries an `exp`. -/
def isTokenExpired (t : SignedToken) (now : Nat) : Bool :=
  decide (t.exp < now)

/-! ## Signup flow (`src/routes/auth.ts`) -/

/-- `POST /signup/verify-email`, the part after the `getByEmail` lookup
(lines 101-132): already-verified check, OTP equality check, expiry check,
then mark verified and clear the OTP fields. -/
def verifyEmailCore (u : UserRec) (otp : String) (now : Nat) :
    Except ErrResp MsgUserEmail × UserRec :=
  if u.isEmailVerified then (.error (400, "Email already verified"), u)
  else if u.emailVerificationOTP != some otp then (.error (400, "Invalid OTP"), u)
  else if (match u.emailVerificationExpiresAt with
           | some e => decide (e < now)
           | none => false) then
    (.error (400, "OTP has expired"), u)
  else
    (.ok ⟨"Email verified successfully. You can now set your password.", u.id, u.email⟩,
     { u with isEmailVerified := true,
              emailVerificationOTP := none,
              emailVerificationExpiresAt := none })

/-- `POST /signup/set-password`, the part after the `getByEmail` lookup
(lines 167-194): verified-email requirement, password-already-set check, then
hash, store and activate. -/
def setPasswordCore (u : UserRec) (password : String) :
    Except ErrResp MsgUserEmail × UserRec :=
  if !u.isEmailVerified then
    (.error (403, "Email must be verified before setting password"), u)
  else if !falsyOpt u.password then
    (.error (400, "Password already set"), u)
  else
    (.ok ⟨"Password set successfully. You can now log in.", u.id, u.email⟩,
     { u with password := some (hashPassword password), isActive := true })

/-- Character class `[^\s@]` of the signup email regex. -/
def isEmailChar (c : Char) : Bool := !c.isWhitespace && c != '@'

/-- Split a character list at the first `@`, if any. -/
def splitAtFirstAt : List Char → List Char × Option (List Char)
  | [] => ([], none)
  | c :: cs =>
    if c = '@' then ([], some cs)
    else
      let r := splitAtFirstAt cs
      (c :: r.1, r.2)

/-- The signup email format check, `/^[^\s@]+@[^\s@]+\.[^\s@]+$/.test(email)`:
exactly one `@` (the character class excludes `@`, so a second one in either
part fails the class check); a nonempty local part of non-space non-`@`
characters; a domain part of such characters containing a `.` that is neither
its first nor its last character (the pattern backtracks to any such dot). -/
def emailRegexTest (s : String) : Bool :=
  match splitAtFirstAt s.data with
  | (lp, some dp) =>
      !lp.isEmpty && lp.all isEmailChar &&
      !dp.isEmpty && dp.all isEmailChar &&
      (dp.drop 1).dropLast.contains '.'
  | (_, none) => false

/-- The pending account record that `POST /signup/initiate` creates (lines
40-53): inactive, unverified, default role/plan/limits, a live signup OTP
with a 10-minute expiry, and a zeroed failed-login counter. -/
def pendingSignupUser (email displayName otp newId : String) (now : Nat) : UserRec :=
  { id := newId, email := email, displayName := displayName, role := "user",
    isActive := false, isEmailVerified := false, password := none,
    subscriptionPlan := "free", apiRequestsCount := 0, apiRequestsLimit := 1000,
    emailVerificationOTP := some otp,
    emailVerificationExpiresAt := some (now + 10 * 60 * 1000),
    loginOTP := none, loginOTPExpiresAt := none,
    passwordResetOTP := none, passwordResetExpiresAt := none,
    failedLoginAttempts := 0, lastFailedLoginAt := none,
    accountLockedUntil := none, lastLoginAt := now }

/-- `POST /signup/initiate` (lines 14-83), store-level: field/format/duplicate
checks, creation of the pending account with a live signup OTP, OTP mail
dispatch, and the compensating delete when the dispatch fails.  `otp` is the
value produced by `JWTService.generateOTP`, `newId` the id assigned by the
record store, `emailSendOk` the mail dispatcher's result. -/
def signupInitiate (db : List UserRec) (email displayName otp newId : String)
    (now : Nat) (emailSendOk : Bool) :
    Except ErrResp MsgUserEmail × List UserRec :=
  if falsyStr email || falsyStr displayName then
    (.error (400, "Email and display name are required"), db)
  else if !emailRegexTest email then
    (.error (400, "Invalid email format"), db)
  else if (getByEmail db email).isSome then
    (.error (409, "User already exists"), db)
  else
    let db1 := db ++ [pendingSignupUser email displayName otp newId now]
    if !emailSendOk then
      (.error (500, "Failed to send verification email"), deleteById db1 newId)
    else
      (.ok ⟨"Verification OTP sent to your email", newId, email⟩, db1)

/-! ## Login flow (`src/routes/auth.ts`) -/

/-- Success data of `POST /login`: `{message, userId, email, requiresOTP}`. -/
structure LoginData where
  message : String
  userId : String
  email : String
  requiresOTP : Bool
  deriving DecidableEq, Repr

/-- Public user summary returned by `POST /login/verify-otp`. -/
structure PublicUser where
  id : String
  email : String
  displayName : String
  role : String
  subscriptionPlan : String
  deriving DecidableEq, Repr

/-- Success data of `POST /login/verify-otp`: `{message, token, user}`. -/
structure LoginVerifyData where
  message : String
  token : SignedToken
  user : PublicUser
  deriving DecidableEq, Repr

/-- `POST /login`, the part after the `getByEmail` lookup (lines 227-297):
activation/verification/password-set gates, the lockout-window check, failure
bookkeeping (increment counter, stamp the failure, lock at five), the
success-path reset of the lockout bookkeeping, storage of a fresh login OTP,
and the OTP mail dispatch.  `otp` is the generated login OTP, `emailSendOk`
the mail dispatcher's result. -/
def loginCore (u : UserRec) (password otp : String) (now : Nat) (emailSendOk : Bool) :
    Except ErrResp LoginData × UserRec :=
  if !u.isActive then (.error (403, "Account is inactive"), u)
  else if !u.isEmailVerified then
    (.error (403, "Email must be verified before login"), u)
  else if falsyOpt u.password then
    (.error (403, "Password not set. Please complete your signup."), u)
  else if (match u.accountLockedUntil with
           | some t => decide (now < t)
           | none => false) then
    (.error (423, "Account is temporarily locked due to multiple failed attempts"), u)
  else if !comparePassword password (u.password.getD "") then
    let newFailedAttempts := u.failedLoginAttempts + 1
    (.error (401, "Invalid credentials"),
     { u with failedLoginAttempts := newFailedAttempts,
              lastFailedLoginAt := some now,
              accountLockedUntil :=
                if 5 ≤ newFailedAttempts then some (now + 30 * 60 * 1000)
                else u.accountLockedUntil })
  else
    let u2 : UserRec :=
      if 0 < u.failedLoginAttempts then
        { u with failedLoginAttempts := 0, lastFailedLoginAt := none,
                 accountLockedUntil := none }
      else u
    let u3 : UserRec :=
      { u2 with loginOTP := some otp, loginOTPExpiresAt := some (now + 10 * 60 * 1000) }
    if !emailSendOk then (.error (500, "Failed to send login OTP"), u3)
    else (.ok ⟨"Login OTP sent to your email", u.id, u.email, true⟩, u3)

/-- `POST /login/verify-otp`, the part after the `getByEmail` lookup
(lines 328-370): activation gate, OTP equality check, expiry check, then clear
the OTP, stamp `lastLoginAt` and issue a session token. -/
def loginVerifyOtpCore (u : UserRec) (otp : String) (now : Nat) :
    Except ErrResp LoginVerifyData × UserRec :=
  if !u.isActive then (.error (403, "Account is inactive"), u)
  else if u.loginOTP != some otp then (.error (400, "Invalid OTP"), u)
  else if (match u.loginOTPExpiresAt with
           | some e => decide (e < now)
           | none => false) then
    (.error (400, "OTP has expired"), u)
  else
    (.ok ⟨"Login successful",
          generateToken ⟨u.id, u.email, u.role, u.subscriptionPlan⟩ now,
          ⟨u.id, u.email, u.displayName, u.role, u.subscriptionPlan⟩⟩,
     { u with loginOTP := none, loginOTPExpiresAt := none, lastLoginAt := now })

/-! ## Password reset flow (`src/routes/auth.ts`) -/

/-- `POST /forgot-password` (lines 389-447), store-level.  Returns the
response, the post-state of the store, and whether an OTP mail dispatch was
attempted (the caller-observable side effects).  The not-found branch answers
with the generic success message; the inactive branch raises 403. -/
def forgotPassword (db : List UserRec) (email otp : String) (now : Nat)
    (emailSendOk : Bool) :
    Except ErrResp MsgOnly × List UserRec × Bool :=
  if falsyStr email then (.error (400, "Email is required"), db, false)
  else
    match getByEmail db email with
    | none =>
        (.ok ⟨"If an account with this email exists, a password reset OTP has been sent"⟩,
         db, false)
    | some u =>
        if !u.isActive then (.error (403, "Account is inactive"), db, false)
        else
          let db1 := updateById db u.id (fun v =>
            { v with passwordResetOTP := some otp,
                     passwordResetExpiresAt := some (now + 10 * 60 * 1000) })
          if !emailSendOk then
            (.error (500, "Failed to send password reset OTP"), db1, true)
          else
            (.ok ⟨"Password reset OTP sent to your email"⟩, db1, true)

/-- Success data of `POST /reset-password/verify-otp`. -/
structure ResetVerifyData where
  message : String
  resetToken : SignedToken
  deriving DecidableEq, Repr

/-- `POST /reset-password/verify-otp`, the part after the `getByEmail` lookup
(lines 465-488): activation gate, OTP equality check, expiry check, then issue
a `password-reset` purpose token; the stored reset OTP is left in place. -/
def resetVerifyOtpCore (u : UserRec) (otp : String) (now : Nat) :
    Except ErrResp ResetVerifyData × UserRec :=
  if !u.isActive then (.error (403, "Account is inactive"), u)
  else if u.passwordResetOTP != some otp then (.error (400, "Invalid OTP"), u)
  else if (match u.passwordResetExpiresAt with
           | some e => decide (e < now)
           | none => false) then
    (.error (400, "OTP has expired"), u)
  else
    (.ok ⟨"OTP verified successfully. You can now set a new password.",
          generateOTPToken u.email .passwordReset now⟩, u)

/-- The field update applied by `POST /reset-password/set-new-password`
(lines 537-541): overwrite the password digest and clear the stored
reset-OTP fields. -/
def resetPasswordUpdate (newPassword : String) (v : UserRec) : UserRec :=
  { v with password := some (hashPassword newPassword),
           passwordResetOTP := none,
           passwordResetExpiresAt := none }

/-- `POST /reset-password/set-new-password` (lines 505-564), store-level:
field and length checks, purpose-token verification with the
`purpose === 'password-reset'` requirement, lookup by the token's email,
activation gate, then hash and overwrite the password and clear the stored
reset-OTP fields.  `resetToken` is `none` when the request field is absent. -/
def setNewPassword (db : List UserRec) (resetToken : Option SignedToken)
    (newPassword : String) (now : Nat) :
    Except ErrResp MsgOnly × List UserRec :=
  match resetToken with
  | none => (.error (400, "Reset token and new password are required"), db)
  | some tok =>
    if falsyStr newPassword then
      (.error (400, "Reset token and new password are required"), db)
    else if newPassword.length < 8 then
      (.error (400, "Password must be at least 8 characters long"), db)
    else
      match verifyOTPToken tok now with
      | some (.otp em .passwordReset) =>
          (match getByEmail db em with
           | none => (.error (404, "User not found"), db)
           | some user =>
               if !user.isActive then (.error (403, "Account is inactive"), db)
               else
                 (.ok ⟨"Password reset successfully. You can now log in with your new password."⟩,
                  updateById db user.id (resetPasswordUpdate newPassword)))
      | _ => (.error (400, "Invalid or expired reset token"), db)

/-! ## Session middleware (`authenticateUser`, middleware/auth) -/

/-- The identity the middleware attaches to `req.user`. -/
structure AuthedIdentity where
  userId : String
  email : String
  role : String
  subscriptionPlan : String
  deriving DecidableEq, Repr

/-- `authenticateUser`, from token verification onward (the header parsing
only extracts the bearer token): verify the token, the defensive
`isTokenExpired` check, fetch the referenced account (`fetch` is
`userService.getById`), existence and activation gates, then attach the
identity taken from the decoded claims.  A non-session payload makes
`decodedToken.userId` undefined, so the Firestore lookup throws and the
catch-all turns it into 401 `Authentication failed`. -/
def authenticateCore (tok : SignedToken) (now : Nat)
    (fetch : String → Option UserRec) : Except ErrResp AuthedIdentity :=
  match verifyToken tok now with
  | none => .error (401, "Invalid or expired token")
  | some payload =>
    if isTokenExpired tok now then .error (401, "Token has expired")
    else
      match payload with
      | .otp _ _ => .error (401, "Authentication failed")
      | .session c =>
        match fetch c.userId with
        | none => .error (404, "User not found")
        | some user =>
          if !user.isActive then .error (403, "User account is inactive")
          else .ok ⟨c.userId, c.email, c.role, c.subscriptionPlan⟩

/-! ## Concrete records for counterexamples and witnesses -/

/-- A fully active account record used to build concrete instances. -/
def baseUser : UserRec :=
  { id := "u1", email := "user@example.com", displayName := "User",
    role := "user", isActive := true, isEmailVerified := true,
    password := some (hashPassword "hunter2password"),
    subscriptionPlan := "free", apiRequestsCount := 0, apiRequestsLimit := 1000,
    emailVerificationOTP := none, emailVerificationExpiresAt := none,
    loginOTP := none, loginOTPExpiresAt := none,
    passwordResetOTP := none, passwordResetExpiresAt := none,
    failedLoginAttempts := 0, lastFailedLoginAt := none,
    accountLockedUntil := none, lastLoginAt := 0 }

/-- An existing but inactive account. -/
def inactiveUser : UserRec :=
  { baseUser with id := "u2", email := "inactive@example.com", isActive := false }

/-! ## Theorems -/

/-- Claim C4 counterexample: a verify-email call on an already-verified
account and a set-password call on an account whose password is already set
both fail with HTTP status 400, not with the CONFLICT status 409 the claim
asserts. -/
theorem c4_conflict_status_counterexample :
    errStatus (verifyEmailCore baseUser "123456" 0).1 = some 400 ∧
    errStatus (setPasswordCore baseUser "longenough1").1 = some 400 ∧
    (400 : Nat) ≠ 409 := by
  refine ⟨rfl, rfl, by decide⟩

/-- Claim C4 (amended): `verifyEmail` on an account whose email is already
verified fails with status 400 `Email already verified`, and `setPassword` on
an account that already has a password set fails with status 400
`Password already set` (the code uses 400, not 409, for both). -/
theorem c4_already_done_yields_400 :
    (∀ (u : UserRec) (otp : String) (now : Nat), u.isEmailVerified = true →
       verifyEmailCore u otp now = (.error (400, "Email already verified"), u)) ∧
    (∀ (u : UserRec) (pw : String), u.isEmailVerified = true →
       falsyOpt u.password = false →
       setPasswordCore u pw = (.error (400, "Password already set"), u)) := by
  constructor
  · intro u otp now h
    simp [verifyEmailCore, h]
  · intro u pw h hpw
    simp [setPasswordCore, h, hpw]

/-- Claim C4 witness: the amended theorem applied to a concrete verified
account with a password set. -/
theorem c4_already_done_yields_400_witness :
    verifyEmailCore baseUser "111111" 7 = (.error (400, "Email already verified"), baseUser) ∧
    setPasswordCore baseUser "anotherlongpw" = (.error (400, "Password already set"), baseUser) :=
  ⟨c4_already_done_yields_400.1 baseUser "111111" 7 rfl,
   c4_already_done_yields_400.2 baseUser "anotherlongpw" rfl rfl⟩

/-- Claim C6: issuing a session token and verifying it while unexpired
returns exactly the input identity claims, and verifying any session token
whose expiry is in the past (expiry ≤ now) returns `none`. -/
theorem c6_session_token_roundtrip :
    (∀ (c : SessionClaims) (issuedAt now : Nat),
       now < issuedAt + 7 * 24 * 60 * 60 →
       verifyToken (generateToken c issuedAt) now = some (.session c)) ∧
    (∀ (t : SignedToken) (now : Nat), t.exp ≤ now → verifyToken t now = none) := by
  constructor
  · intro c issuedAt now h
    simp [verifyToken, jwtVerify, generateToken, h]
  · intro t now h
    simp [verifyToken, jwtVerify, Nat.not_lt.mpr h]

/-- Claim C6 witness: round-trip at a concrete identity and rejection of a
concrete expired token. -/
theorem c6_session_token_roundtrip_witness :
    verifyToken (generateToken ⟨"u1", "user@example.com", "user", "free"⟩ 0) 1 =
      some (.session ⟨"u1", "user@example.com", "user", "free"⟩) ∧
    verifyToken ⟨.session ⟨"u1", "user@example.com", "user", "free"⟩, 0, 5, JWT_SECRET⟩ 5 =
      none :=
  ⟨c6_session_token_roundtrip.1 ⟨"u1", "user@example.com", "user", "free"⟩ 0 1 (by decide),
   c6_session_token_roundtrip.2 ⟨.session ⟨"u1", "user@example.com", "user", "free"⟩, 0, 5, JWT_SECRET⟩ 5 (by decide)⟩

/-- Claim C1 counterexample: a submitted code equal to the stored OTP is
accepted when the stored expiry equals `now` (not strictly after it), and
also when the expiry field is absent altogether, contradicting the claim that
acceptance requires an expiry that is present and strictly after now. -/
theorem c1_otp_expiry_counterexample :
    respOk (verifyEmailCore
      { baseUser with isEmailVerified := false,
                      emailVerificationOTP := some "123456",
                      emailVerificationExpiresAt := some 1000 } "123456" 1000).1 = true ∧
    respOk (verifyEmailCore
      { baseUser with isEmailVerified := false,
                      emailVerificationOTP := some "123456",
                      emailVerificationExpiresAt := none } "123456" 5000).1 = true := by
  exact ⟨rfl, rfl⟩

/-- Claim C1 (amended): in each of the three stored-OTP checks (signup email
verification, login OTP, password reset OTP), a submitted code is accepted iff
it equals the stored OTP and every present expiry satisfies `now ≤ expiry`:
the check rejects only an expiry strictly before now, so an absent expiry or
an expiry equal to now is still accepted. -/
theorem c1_otp_acceptance_characterization :
    (∀ (u : UserRec) (otp : String) (now : Nat), u.isEmailVerified = false →
       (respOk (verifyEmailCore u otp now).1 = true ↔
         u.emailVerificationOTP = some otp ∧
           ∀ e, u.emailVerificationExpiresAt = some e → now ≤ e)) ∧
    (∀ (u : UserRec) (otp : String) (now : Nat), u.isActive = true →
       (respOk (loginVerifyOtpCore u otp now).1 = true ↔
         u.loginOTP = some otp ∧
           ∀ e, u.loginOTPExpiresAt = some e → now ≤ e)) ∧
    (∀ (u : UserRec) (otp : String) (now : Nat), u.isActive = true →
       (respOk (resetVerifyOtpCore u otp now).1 = true ↔
         u.passwordResetOTP = some otp ∧
           ∀ e, u.passwordResetExpiresAt = some e → now ≤ e)) := by
  refine ⟨?_, ?_, ?_⟩
  · intro u otp now h
    rcases hO : u.emailVerificationOTP with _ | s
    · simp [verifyEmailCore, respOk, h, hO]
    · rcases hE : u.emailVerificationExpiresAt with _ | e <;>
        by_cases hx : s = otp <;>
          simp [verifyEmailCore, respOk, h, hO, hE, hx] <;>
            split_ifs with he <;> simp <;> omega
  · intro u otp now h
    rcases hO : u.loginOTP with _ | s
    · simp [loginVerifyOtpCore, respOk, h, hO]
    · rcases hE : u.loginOTPExpiresAt with _ | e <;>
        by_cases hx : s = otp <;>
          simp [loginVerifyOtpCore, respOk, h, hO, hE, hx] <;>
            split_ifs with he <;> simp <;> omega
  · intro u otp now h
    rcases hO : u.passwordResetOTP with _ | s
    · simp [resetVerifyOtpCore, respOk, h, hO]
    · rcases hE : u.passwordResetExpiresAt with _ | e <;>
        by_cases hx : s = otp <;>
          simp [resetVerifyOtpCore, respOk, h, hO, hE, hx] <;>
            split_ifs with he <;> simp <;> omega

/-- Claim C1 witness: the characterization applied at concrete inputs for all
three checks. -/
theorem c1_otp_acceptance_characterization_witness :
    respOk (verifyEmailCore
      { baseUser with isEmailVerified := false,
                      emailVerificationOTP := some "654321",
                      emailVerificationExpiresAt := some 10 } "654321" 5).1 = true ∧
    respOk (loginVerifyOtpCore
      { baseUser with loginOTP := some "222333",
                      loginOTPExpiresAt := some 10 } "222333" 5).1 = true ∧
    respOk (resetVerifyOtpCore
      { baseUser with passwordResetOTP := some "444555",
                      passwordResetExpiresAt := some 10 } "444555" 5).1 = true :=
  ⟨(c1_otp_acceptance_characterization.1 _ "654321" 5 rfl).mpr
     ⟨rfl, by intro e he; injection he with h1; omega⟩,
   (c1_otp_acceptance_characterization.2.1 _ "222333" 5 rfl).mpr
     ⟨rfl, by intro e he; injection he with h1; omega⟩,
   (c1_otp_acceptance_characterization.2.2 _ "444555" 5 rfl).mpr
     ⟨rfl, by intro e he; injection he with h1; omega⟩⟩

/-- Claim C2 counterexample: on a store holding one inactive account,
`forgotPassword` answers the inactive account's email with a 403
`Account is inactive` error, while a non-existent email gets the generic
success message, so the two responses are distinguishable. -/
theorem c2_forgot_password_counterexample :
    (forgotPassword [inactiveUser] "inactive@example.com" "111111" 0 true).1 =
      .error (403, "Account is inactive") ∧
    (forgotPassword [inactiveUser] "ghost@example.com" "111111" 0 true).1 =
      .ok ⟨"If an account with this email exists, a password reset OTP has been sent"⟩ ∧
    respOk (forgotPassword [inactiveUser] "inactive@example.com" "111111" 0 true).1 ≠
      respOk (forgotPassword [inactiveUser] "ghost@example.com" "111111" 0 true).1 := by
  refine ⟨rfl, rfl, by decide⟩

/-- Claim C2 (amended): `forgotPassword` on a non-existent email returns the
generic success message with no store update and no mail dispatch, and on an
existing inactive account it returns a 403 `Account is inactive` error, also
with no store update and no mail dispatch; neither case has a side effect,
but the responses differ, so the caller can distinguish the two. -/
theorem c2_forgot_password_branches :
    (∀ (db : List UserRec) (email otp : String) (now : Nat) (es : Bool),
       falsyStr email = false → getByEmail db email = none →
       forgotPassword db email otp now es =
         (.ok ⟨"If an account with this email exists, a password reset OTP has been sent"⟩,
          db, false)) ∧
    (∀ (db : List UserRec) (email otp : String) (now : Nat) (es : Bool) (u : UserRec),
       falsyStr email = false → getByEmail db email = some u → u.isActive = false →
       forgotPassword db email otp now es =
         (.error (403, "Account is inactive"), db, false)) := by
  constructor
  · intro db email otp now es hem hge
    simp [forgotPassword, hem, hge]
  · intro db email otp now es u hem hge hia
    simp [forgotPassword, hem, hge, hia]

/-- Claim C2 witness: both branches of the amended theorem at the concrete
one-account store. -/
theorem c2_forgot_password_branches_witness :
    forgotPassword [inactiveUser] "ghost@example.com" "222222" 3 true =
      (.ok ⟨"If an account with this email exists, a password reset OTP has been sent"⟩,
       [inactiveUser], false) ∧
    forgotPassword [inactiveUser] "inactive@example.com" "222222" 3 true =
      (.error (403, "Account is inactive"), [inactiveUser], false) :=
  ⟨c2_forgot_password_branches.1 [inactiveUser] "ghost@example.com" "222222" 3 true rfl rfl,
   c2_forgot_password_branches.2 [inactiveUser] "inactive@example.com" "222222" 3 true
     inactiveUser rfl rfl rfl⟩

/-- Claim C5: in signup initiate, when all checks pass but the OTP mail send
fails, the freshly created account is deleted again, so the store is exactly
the initial one and the call fails with 500; when the send succeeds, the
store gains exactly one pending account for that email carrying a live signup
OTP, and the call succeeds. -/
theorem c5_initiate_atomic
    (db : List UserRec) (email displayName otp newId : String) (now : Nat)
    (hfresh : ∀ u ∈ db, u.id ≠ newId)
    (hge : getByEmail db email = none)
    (hema : falsyStr email = false) (hdn : falsyStr displayName = false)
    (hfmt : emailRegexTest email = true) :
    signupInitiate db email displayName otp newId now false =
      (.error (500, "Failed to send verification email"), db) ∧
    ∃ v : UserRec,
      (signupInitiate db email displayName otp newId now true).1 =
        .ok ⟨"Verification OTP sent to your email", newId, email⟩ ∧
      (signupInitiate db email displayName otp newId now true).2 = db ++ [v] ∧
      v.email = email ∧ v.isActive = false ∧ v.isEmailVerified = false ∧
      v.emailVerificationOTP = some otp ∧
      v.emailVerificationExpiresAt = some (now + 10 * 60 * 1000) := by
  have h1 : db.filter (fun u => u.id != newId) = db := by
    apply List.filter_eq_self.mpr
    intro a ha
    simpa using hfresh a ha
  constructor
  · simp [signupInitiate, pendingSignupUser, hema, hdn, hfmt, hge, deleteById,
      List.filter_append, h1]
  · exact ⟨pendingSignupUser email displayName otp newId now,
      by simp [signupInitiate, hema, hdn, hfmt, hge],
      by simp [signupInitiate, hema, hdn, hfmt, hge],
      rfl, rfl, rfl, rfl, rfl⟩

/-- Claim C5 witness: the rollback and the success case on the empty store
with a well-formed signup request. -/
theorem c5_initiate_atomic_witness :
    signupInitiate [] "a@b.co" "Ann" "123456" "n1" 0 false =
      (.error (500, "Failed to send verification email"), []) ∧
    ∃ v : UserRec,
      (signupInitiate [] "a@b.co" "Ann" "123456" "n1" 0 true).1 =
        .ok ⟨"Verification OTP sent to your email", "n1", "a@b.co"⟩ ∧
      (signupInitiate [] "a@b.co" "Ann" "123456" "n1" 0 true).2 = [] ++ [v] ∧
      v.email = "a@b.co" ∧ v.isActive = false ∧ v.isEmailVerified = false ∧
      v.emailVerificationOTP = some "123456" ∧
      v.emailVerificationExpiresAt = some (0 + 10 * 60 * 1000) :=
  c5_initiate_atomic [] "a@b.co" "Ann" "123456" "n1" 0
    (by intro u hu; cases hu) rfl rfl rfl (by decide)

/-- Claim C7: the password-reset completion step rejects any token whose
payload is a purpose claim other than `password-reset` (for example a `login`
purpose token) with the invalid-token 400 outcome, leaving the store — and
hence every account's password — unchanged; this holds whether or not the
token is correctly signed and unexpired. -/
theorem c7_reset_purpose_scoping
    (db : List UserRec) (tok : SignedToken) (em : String) (p : Purpose)
    (pw : String) (now : Nat)
    (hp : tok.payload = .otp em p) (hne : p ≠ .passwordReset)
    (hl : 8 ≤ pw.length) :
    setNewPassword db (some tok) pw now =
      (.error (400, "Invalid or expired reset token"), db) := by
  have hfe : falsyStr pw = false := by
    simp [falsyStr, beq_eq_false_iff_ne]
    omega
  have hlen : ¬ pw.length < 8 := by omega
  by_cases hv : (tok.secret == JWT_SECRET && decide (now < tok.exp)) = true
  · cases p with
    | signup => simp [setNewPassword, hfe, hlen, verifyOTPToken, jwtVerify, hv, hp]
    | login => simp [setNewPassword, hfe, hlen, verifyOTPToken, jwtVerify, hv, hp]
    | passwordReset => exact absurd rfl hne
  · rw [Bool.not_eq_true] at hv
    simp [setNewPassword, hfe, hlen, verifyOTPToken, jwtVerify, hv]

/-- Claim C7 witness: a well-formed, correctly signed, unexpired `login`
purpose token presented to set-new-password on a one-account store. -/
theorem c7_reset_purpose_scoping_witness :
    setNewPassword [baseUser] (some (generateOTPToken "user@example.com" .login 0))
      "newlongpassword" 1 =
      (.error (400, "Invalid or expired reset token"), [baseUser]) :=
  c7_reset_purpose_scoping [baseUser] (generateOTPToken "user@example.com" .login 0)
    "user@example.com" .login "newlongpassword" 1 rfl (by decide) (by decide)

/-- Claim C8: submitting a wrong OTP to the login verify-otp step returns the
400 `Invalid OTP` error and leaves the account record exactly as it was — no
counter increment, no lock, and the stored login OTP stays in place — and any
sequence of wrong-OTP submissions likewise leaves the record unchanged. -/
theorem c8_wrong_login_otp_frame
    (u : UserRec) (otp : String) (now : Nat)
    (hact : u.isActive = true) (hwrong : u.loginOTP ≠ some otp) :
    loginVerifyOtpCore u otp now = (.error (400, "Invalid OTP"), u) ∧
    ∀ subs : List (String × Nat), (∀ s ∈ subs, u.loginOTP ≠ some s.1) →
      subs.foldl (fun v s => (loginVerifyOtpCore v s.1 s.2).2) u = u := by
  have step : ∀ (o : String) (n : Nat), u.loginOTP ≠ some o →
      loginVerifyOtpCore u o n = (.error (400, "Invalid OTP"), u) := by
    intro o n ho
    simp [loginVerifyOtpCore, hact, ho]
  refine ⟨step otp now hwrong, ?_⟩
  intro subs hsubs
  induction subs with
  | nil => rfl
  | cons s rest ih =>
    have h1 : (loginVerifyOtpCore u s.1 s.2).2 = u := by
      rw [step s.1 s.2 (hsubs s (by simp))]
    simp only [List.foldl_cons, h1]
    exact ih (fun t ht => hsubs t (by simp [ht]))

/-- Claim C8 witness: a concrete account with a live login OTP and two wrong
submissions. -/
theorem c8_wrong_login_otp_frame_witness :
    loginVerifyOtpCore { baseUser with loginOTP := some "123456",
                                       loginOTPExpiresAt := some 100 } "000000" 5 =
      (.error (400, "Invalid OTP"),
       { baseUser with loginOTP := some "123456", loginOTPExpiresAt := some 100 }) ∧
    [("000000", 5), ("999999", 6)].foldl
        (fun v s => (loginVerifyOtpCore v s.1 s.2).2)
        { baseUser with loginOTP := some "123456", loginOTPExpiresAt := some 100 } =
      { baseUser with loginOTP := some "123456", loginOTPExpiresAt := some 100 } :=
  ⟨(c8_wrong_login_otp_frame _ "000000" 5 rfl (by decide)).1,
   (c8_wrong_login_otp_frame _ "000000" 5 rfl (by decide)).2
     [("000000", 5), ("999999", 6)] (by decide)⟩

/-- Claim C9: when `authenticateUser` succeeds, the identity it attaches is
exactly the token's claims (userId, email, role, plan); consequently two
stored account states that differ only in role or subscription plan yield
identical middleware outcomes for the same token — the freshly fetched record
is consulted only for existence and `isActive`. -/
theorem c9_identity_from_claims :
    (∀ (tok : SignedToken) (now : Nat) (fetch : String → Option UserRec)
       (ident : AuthedIdentity),
       authenticateCore tok now fetch = .ok ident →
       ∃ c, tok.payload = .session c ∧
         ident = ⟨c.userId, c.email, c.role, c.subscriptionPlan⟩) ∧
    (∀ (tok : SignedToken) (now : Nat) (u1 u2 : UserRec),
       u2 = { u1 with role := u2.role, subscriptionPlan := u2.subscriptionPlan } →
       authenticateCore tok now (fun _ => some u1) =
         authenticateCore tok now (fun _ => some u2)) := by
  constructor
  · intro tok now fetch ident h
    by_cases hv : (tok.secret == JWT_SECRET && decide (now < tok.exp)) = true
    · cases hp : tok.payload with
      | otp em p =>
        by_cases hexp : isTokenExpired tok now = true <;>
          simp [authenticateCore, verifyToken, jwtVerify, hv, hp, hexp] at h
      | session c =>
        by_cases hexp : tok.exp < now
        · simp [authenticateCore, verifyToken, jwtVerify, isTokenExpired,
            hv, hp, hexp] at h
        · cases hf : fetch c.userId with
          | none =>
            simp [authenticateCore, verifyToken, jwtVerify, isTokenExpired,
              hv, hp, hexp, hf] at h
          | some user =>
            by_cases hia : user.isActive = true
            · refine ⟨c, rfl, ?_⟩
              simp [authenticateCore, verifyToken, jwtVerify, isTokenExpired,
                hv, hp, hexp, hf, hia] at h
              exact h.symm
            · simp [authenticateCore, verifyToken, jwtVerify, isTokenExpired,
                hv, hp, hexp, hf, hia] at h
    · rw [Bool.not_eq_true] at hv
      simp [authenticateCore, verifyToken, jwtVerify, hv] at h
  · intro tok now u1 u2 h12
    have hia : u2.isActive = u1.isActive := by rw [h12]
    cases hv : verifyToken tok now with
    | none => simp [authenticateCore, hv]
    | some payload =>
      cases payload with
      | otp em p => simp [authenticateCore, hv]
      | session c => simp [authenticateCore, hv, hia]

/-- Claim C9 witness: a valid session token against two fetched records that
differ only in role and plan, and the identity extraction at the first. -/
theorem c9_identity_from_claims_witness :
    (∃ c, (generateToken ⟨"u1", "user@example.com", "admin", "enterprise"⟩ 0).payload =
        .session c ∧
      (⟨"u1", "user@example.com", "admin", "enterprise"⟩ : AuthedIdentity) =
        ⟨c.userId, c.email, c.role, c.subscriptionPlan⟩) ∧
    authenticateCore (generateToken ⟨"u1", "user@example.com", "admin", "enterprise"⟩ 0) 1
        (fun _ => some baseUser) =
      authenticateCore (generateToken ⟨"u1", "user@example.com", "admin", "enterprise"⟩ 0) 1
        (fun _ => some { baseUser with role := "admin", subscriptionPlan := "enterprise" }) :=
  ⟨c9_identity_from_claims.1
     (generateToken ⟨"u1", "user@example.com", "admin", "enterprise"⟩ 0) 1
     (fun _ => some baseUser) ⟨"u1", "user@example.com", "admin", "enterprise"⟩ rfl,
   c9_identity_from_claims.2
     (generateToken ⟨"u1", "user@example.com", "admin", "enterprise"⟩ 0) 1
     baseUser { baseUser with role := "admin", subscriptionPlan := "enterprise" } rfl⟩

/-- `find?` commutes with mapping a function that preserves the predicate. -/
theorem find?_map_comm {α : Type} (p : α → Bool) (g : α → α) (l : List α)
    (hpg : ∀ x, p (g x) = p x) :
    (l.map g).find? p = (l.find? p).map g := by
  induction l with
  | nil => rfl
  | cons a as ih =>
    simp only [List.map_cons, List.find?_cons, hpg]
    cases hpa : p a <;> simp [hpa, ih]

/-- Lookup by email commutes with an update-by-id whose update function does
not change the email field. -/
theorem getByEmail_updateById (db : List UserRec) (id email : String)
    (f : UserRec → UserRec) (hf : ∀ v, (f v).email = v.email) :
    getByEmail (updateById db id f) email =
      (getByEmail db email).map (fun v => if v.id == id then f v else v) := by
  have hpg : ∀ v : UserRec,
      ((if (v.id == id) = true then f v else v).email == email) = (v.email == email) := by
    intro v
    by_cases hid : (v.id == id) = true <;> simp [hid, hf]
  unfold getByEmail updateById
  exact find?_map_comm _ _ db hpg

/-- Claim C10: a password-reset purpose token is not consumed by use — no
stored state marks it as used — so after a successful set-new-password call a
second call with the same still-unexpired token also succeeds and overwrites
the password again. -/
theorem c10_reset_token_reusable
    (db : List UserRec) (tok : SignedToken) (em pw1 pw2 : String)
    (n1 n2 : Nat) (u : UserRec)
    (hp : tok.payload = .otp em .passwordReset) (hsec : tok.secret = JWT_SECRET)
    (he1 : n1 < tok.exp) (he2 : n2 < tok.exp)
    (hl1 : 8 ≤ pw1.length) (hl2 : 8 ≤ pw2.length)
    (hu : getByEmail db em = some u) (hact : u.isActive = true) :
    respOk (setNewPassword db (some tok) pw1 n1).1 = true ∧
    respOk (setNewPassword (setNewPassword db (some tok) pw1 n1).2
        (some tok) pw2 n2).1 = true ∧
    (getByEmail (setNewPassword (setNewPassword db (some tok) pw1 n1).2
        (some tok) pw2 n2).2 em).map (fun v => v.password) =
      some (some (hashPassword pw2)) := by
  have hfe1 : falsyStr pw1 = false := by
    simp [falsyStr, beq_eq_false_iff_ne]
    omega
  have hfe2 : falsyStr pw2 = false := by
    simp [falsyStr, beq_eq_false_iff_ne]
    omega
  have hlen1 : ¬ pw1.length < 8 := by omega
  have hlen2 : ¬ pw2.length < 8 := by omega
  have hv1 : verifyOTPToken tok n1 = some (.otp em .passwordReset) := by
    simp [verifyOTPToken, jwtVerify, hsec, he1, hp]
  have hv2 : verifyOTPToken tok n2 = some (.otp em .passwordReset) := by
    simp [verifyOTPToken, jwtVerify, hsec, he2, hp]
  have e1 : setNewPassword db (some tok) pw1 n1 =
      (.ok ⟨"Password reset successfully. You can now log in with your new password."⟩,
       updateById db u.id (resetPasswordUpdate pw1)) := by
    simp [setNewPassword, hfe1, hlen1, hv1, hu, hact]
  have hg1 : getByEmail (updateById db u.id (resetPasswordUpdate pw1)) em =
      some (resetPasswordUpdate pw1 u) := by
    rw [getByEmail_updateById db u.id em (resetPasswordUpdate pw1) (fun v => rfl), hu]
    simp
  have hact1 : (resetPasswordUpdate pw1 u).isActive = true := hact
  have hid1 : (resetPasswordUpdate pw1 u).id = u.id := rfl
  have e2 : setNewPassword (updateById db u.id (resetPasswordUpdate pw1))
      (some tok) pw2 n2 =
      (.ok ⟨"Password reset successfully. You can now log in with your new password."⟩,
       updateById (updateById db u.id (resetPasswordUpdate pw1))
         u.id (resetPasswordUpdate pw2)) := by
    simp [setNewPassword, hfe2, hlen2, hv2, hg1, hact1, hid1]
  have hg2 : getByEmail (updateById (updateById db u.id (resetPasswordUpdate pw1))
      u.id (resetPasswordUpdate pw2)) em =
      some (resetPasswordUpdate pw2 (resetPasswordUpdate pw1 u)) := by
    rw [getByEmail_updateById _ _ _ (resetPasswordUpdate pw2) (fun v => rfl), hg1]
    simp [resetPasswordUpdate]
  rw [e1]
  refine ⟨rfl, ?_, ?_⟩
  · rw [e2]
    rfl
  · rw [e2, hg2]
    rfl

/-- Claim C10 witness: the same concrete reset token used twice in a row on a
one-account store. -/
theorem c10_reset_token_reusable_witness :
    respOk (setNewPassword [baseUser]
        (some (generateOTPToken "user@example.com" .passwordReset 0))
        "firstnewpass" 1).1 = true ∧
    respOk (setNewPassword
        (setNewPassword [baseUser]
          (some (generateOTPToken "user@example.com" .passwordReset 0))
          "firstnewpass" 1).2
        (some (generateOTPToken "user@example.com" .passwordReset 0))
        "secondnewpass" 2).1 = true ∧
    (getByEmail (setNewPassword
        (setNewPassword [baseUser]
          (some (generateOTPToken "user@example.com" .passwordReset 0))
          "firstnewpass" 1).2
        (some (generateOTPToken "user@example.com" .passwordReset 0))
        "secondnewpass" 2).2 "user@example.com").map (fun v => v.password) =
      some (some (hashPassword "secondnewpass")) :=
  c10_reset_token_reusable [baseUser]
    (generateOTPToken "user@example.com" .passwordReset 0)
    "user@example.com" "firstnewpass" "secondnewpass" 1 2 baseUser
    rfl rfl (by decide) (by decide) (by decide) (by decide) rfl rfl

/-- Failure bookkeeping of the login handler: on a wrong password for an
unlocked, fully set-up account, the response is 401 and the stored record
gets an incremented failed-attempts counter, a failure timestamp, and — once
the new count reaches five — a lock until now plus 30 minutes. -/
theorem loginCore_fail_bookkeeping (u : UserRec) (w otp : String) (now : Nat) (es : Bool)
    (hact : u.isActive = true) (hver : u.isEmailVerified = true)
    (hpw : falsyOpt u.password = false)
    (hlock : u.accountLockedUntil = none)
    (hw : comparePassword w (u.password.getD "") = false) :
    (loginCore u w otp now es).1 = .error (401, "Invalid credentials") ∧
    (loginCore u w otp now es).2.isActive = u.isActive ∧
    (loginCore u w otp now es).2.isEmailVerified = u.isEmailVerified ∧
    (loginCore u w otp now es).2.password = u.password ∧
    (loginCore u w otp now es).2.failedLoginAttempts = u.failedLoginAttempts + 1 ∧
    (loginCore u w otp now es).2.lastFailedLoginAt = some now ∧
    (loginCore u w otp now es).2.accountLockedUntil =
      (if 5 ≤ u.failedLoginAttempts + 1 then some (now + 30 * 60 * 1000) else none) := by
  simp [loginCore, hact, hver, hpw, hlock, hw]

/-- Claim C3: starting from a fully set-up, unlocked account with a zeroed
counter, five consecutive wrong-password logins leave the counter at five —
the lock does not reset it — and set the lock to the fifth failure's time
plus 30 minutes; a sixth attempt inside that window gets 423 with the record
untouched even though the password is correct; and once the window has
elapsed, a correct-password login succeeds, resets the counter to 0 and
clears the failure timestamp and the lock. -/
theorem c3_lockout_lifecycle
    (u u1 u2 u3 u4 u5 : UserRec) (w c otp : String)
    (t1 t2 t3 t4 t5 t6 t7 : Nat)
    (hact : u.isActive = true) (hver : u.isEmailVerified = true)
    (hpw : falsyOpt u.password = false)
    (hlock : u.accountLockedUntil = none) (hfail : u.failedLoginAttempts = 0)
    (hw : comparePassword w (u.password.getD "") = false)
    (hc : comparePassword c (u.password.getD "") = true)
    (h6 : t6 < t5 + 30 * 60 * 1000) (h7 : t5 + 30 * 60 * 1000 ≤ t7)
    (e1 : (loginCore u w otp t1 true).2 = u1)
    (e2 : (loginCore u1 w otp t2 true).2 = u2)
    (e3 : (loginCore u2 w otp t3 true).2 = u3)
    (e4 : (loginCore u3 w otp t4 true).2 = u4)
    (e5 : (loginCore u4 w otp t5 true).2 = u5) :
    u5.failedLoginAttempts = 5 ∧
    u5.accountLockedUntil = some (t5 + 30 * 60 * 1000) ∧
    loginCore u5 c otp t6 true =
      (.error (423, "Account is temporarily locked due to multiple failed attempts"), u5) ∧
    respOk (loginCore u5 c otp t7 true).1 = true ∧
    (loginCore u5 c otp t7 true).2.failedLoginAttempts = 0 ∧
    (loginCore u5 c otp t7 true).2.lastFailedLoginAt = none ∧
    (loginCore u5 c otp t7 true).2.accountLockedUntil = none := by
  have H1 := loginCore_fail_bookkeeping u w otp t1 true hact hver hpw hlock hw
  rw [e1] at H1
  obtain ⟨-, a1, v1, p1, f1, -, l1⟩ := H1
  rw [hact] at a1
  rw [hver] at v1
  rw [hfail] at f1 l1
  norm_num at f1 l1
  have pw1 : falsyOpt u1.password = false := by rw [p1]; exact hpw
  have w1 : comparePassword w (u1.password.getD "") = false := by rw [p1]; exact hw
  have H2 := loginCore_fail_bookkeeping u1 w otp t2 true a1 v1 pw1 l1 w1
  rw [e2] at H2
  obtain ⟨-, a2, v2, p2, f2, -, l2⟩ := H2
  rw [a1] at a2
  rw [v1] at v2
  rw [f1] at f2 l2
  rw [p1] at p2
  norm_num at f2 l2
  have pw2 : falsyOpt u2.password = false := by rw [p2]; exact hpw
  have w2 : comparePassword w (u2.password.getD "") = false := by rw [p2]; exact hw
  have H3 := loginCore_fail_bookkeeping u2 w otp t3 true a2 v2 pw2 l2 w2
  rw [e3] at H3
  obtain ⟨-, a3, v3, p3, f3, -, l3⟩ := H3
  rw [a2] at a3
  rw [v2] at v3
  rw [f2] at f3 l3
  rw [p2] at p3
  norm_num at f3 l3
  have pw3 : falsyOpt u3.password = false := by rw [p3]; exact hpw
  have w3 : comparePassword w (u3.password.getD "") = false := by rw [p3]; exact hw
  have H4 := loginCore_fail_bookkeeping u3 w otp t4 true a3 v3 pw3 l3 w3
  rw [e4] at H4
  obtain ⟨-, a4, v4, p4, f4, -, l4⟩ := H4
  rw [a3] at a4
  rw [v3] at v4
  rw [f3] at f4 l4
  rw [p3] at p4
  norm_num at f4 l4
  have pw4 : falsyOpt u4.password = false := by rw [p4]; exact hpw
  have w4 : comparePassword w (u4.password.getD "") = false := by rw [p4]; exact hw
  have H5 := loginCore_fail_bookkeeping u4 w otp t5 true a4 v4 pw4 l4 w4
  rw [e5] at H5
  obtain ⟨-, a5, v5, p5, f5, -, l5⟩ := H5
  rw [a4] at a5
  rw [v4] at v5
  rw [f4] at f5 l5
  rw [p4] at p5
  norm_num at f5 l5
  have pw5 : falsyOpt u5.password = false := by rw [p5]; exact hpw
  have c5 : comparePassword c (u5.password.getD "") = true := by rw [p5]; exact hc
  have h7x : ¬ t7 < t5 + 30 * 60 * 1000 := Nat.not_lt.mpr h7
  refine ⟨f5, l5, ?_, ?_, ?_, ?_, ?_⟩
  · simp [loginCore, a5, v5, pw5, l5, h6]
  · simp [loginCore, respOk, a5, v5, pw5, l5, c5, f5, h7x]
  · simp [loginCore, a5, v5, pw5, l5, c5, f5, h7x]
  · simp [loginCore, a5, v5, pw5, l5, c5, f5, h7x]
  · simp [loginCore, a5, v5, pw5, l5, c5, f5, h7x]

/-- The concrete account state after `k` wrong-password logins at time 0 in
the lockout scenario witness. -/
def failedUser (k : Nat) : UserRec :=
  { baseUser with failedLoginAttempts := k, lastFailedLoginAt := some 0,
                  accountLockedUntil :=
                    if 5 ≤ k then some (0 + 30 * 60 * 1000) else none }

/-- Claim C3 witness: the lockout lifecycle run on a concrete account, with
five wrong-password attempts at time 0, a correct-password attempt inside the
window at time 1, and a correct-password attempt at the window's end. -/
theorem c3_lockout_lifecycle_witness :
    (failedUser 5).failedLoginAttempts = 5 ∧
    (failedUser 5).accountLockedUntil = some (0 + 30 * 60 * 1000) ∧
    loginCore (failedUser 5) "hunter2password" "111111" 1 true =
      (.error (423, "Account is temporarily locked due to multiple failed attempts"),
       failedUser 5) ∧
    respOk (loginCore (failedUser 5) "hunter2password" "111111" 1800000 true).1 = true ∧
    (loginCore (failedUser 5) "hunter2password" "111111" 1800000 true).2.failedLoginAttempts = 0 ∧
    (loginCore (failedUser 5) "hunter2password" "111111" 1800000 true).2.lastFailedLoginAt = none ∧
    (loginCore (failedUser 5) "hunter2password" "111111" 1800000 true).2.accountLockedUntil = none :=
  c3_lockout_lifecycle baseUser (failedUser 1) (failedUser 2) (failedUser 3)
    (failedUser 4) (failedUser 5) "wrongpass" "hunter2password" "111111"
    0 0 0 0 0 1 1800000
    rfl rfl rfl rfl rfl (by decide) (by decide) (by decide) (by decide)
    (by decide) (by decide) (by decide) (by decide) (by decide)
